import Mathlib

/-
Verification of the wimark/log structured-logging library (src/log.go).

Strings are modeled as lists of units (List Char), one unit per Go byte;
Go integers are modeled as Int, message lengths as Nat cast to Int where
the source compares them with an int field.  The JSON marshalling of a
record is modeled as the record itself: each emitted line is represented
by the LogMsg value handed to json.Marshal, so the message field of an
output line is the Message component of that value.
-/

namespace Liblog

/-- Log levels, src/log.go lines 16-21: type LogLevel int with variables
DebugLevel = 0, InfoLevel = 1, WarningLevel = 2, ErrorLevel = 3. -/
def DebugLevel : Int := 0

/-- Info level constant (1) from src/log.go line 19. -/
def InfoLevel : Int := 1

/-- Warning level constant (2) from src/log.go line 20. -/
def WarningLevel : Int := 2

/-- Error level constant (3) from src/log.go line 21. -/
def ErrorLevel : Int := 3

/-- Default maximum message length, src/log.go line 23: var MaxMsgLength int = 8000. -/
def MaxMsgLength : Int := 8000

/-- The LogMsg record, src/log.go lines 39-47.  Timestamp is an abstract
instant (Nat).  Message, Module, ModuleId and SrcFile are unit strings. -/
structure LogMsg where
  Timestamp : Nat
  Level : Int
  Message : List Char
  Module : List Char
  ModuleId : List Char
  SrcFile : List Char
  SrcLine : Int
deriving DecidableEq

/-- Configuration part of the Logger, src/log.go lines 49-57.  The output
and stop channels are modeled separately in HandleState; writers is the
number of registered sinks (the sinks themselves are abstract io.Writer
values that all receive the same lines, in registration order). -/
structure Logger where
  module : List Char
  id : List Char
  Level : Int
  msgLen : Int
  writers : Nat
deriving DecidableEq

/-- Inner scan loop of printMessage, src/log.go lines 67-76: starting from
the first newline of the text, the loop walks forward over the newline
positions while they stay at offsets not exceeding msgLen, and keeps the
last one seen (index).  Net effect, rendered structurally here: the
greatest position p with p less than or equal to L whose unit is a
newline, or none when no newline occurs at such an offset.  Positions are
relative to the head of the list (head = 0). -/
def lastNlWithin (L : Nat) : List Char → Option Nat
  | [] => none
  | c :: cs =>
    let tail : Option Nat :=
      match L with
      | 0 => none
      | m + 1 =>
        match lastNlWithin m cs with
        | some j => some (j + 1)
        | none => none
    match tail with
    | some j => some j
    | none => if c = '\n' then some 0 else none

/-- One iteration of the split loop, src/log.go lines 66-84: the emitted
fragment msgPart.  With no newline at offset at most msgLen the code takes
a hard cut text[:msgLen] (line 79); with a newline found at index it takes
text[:index] (line 82).  Nonnegative msgLen is assumed via toNat; the Go
code would fail on a negative slice bound, which no resolved configuration
in the verified claims produces. -/
def firstPart (logger : Logger) (msg : LogMsg) : LogMsg :=
  match lastNlWithin logger.msgLen.toNat msg.Message with
  | none => { msg with Message := msg.Message.take logger.msgLen.toNat }
  | some index => { msg with Message := msg.Message.take index }

/-- Split loop of printMessage, src/log.go lines 65-91, with an explicit
fuel bound on the number of iterations.  Returns the list of emitted
lines together with true when the code completes, false when the fuel ran
out with the loop still running.  Faithful detail: the loop condition
reads len(msg.Message) and line 90 stores the remainder into the local
copy msgPart rather than into msg, so msg.Message is never shortened and
the loop state is identical from one iteration to the next. -/
def printLoop (logger : Logger) (fuel : Nat) (msg : LogMsg) : List LogMsg × Bool :=
  if (msg.Message.length : Int) ≤ logger.msgLen then
    ([msg], true)
  else
    match fuel with
    | 0 => ([], false)
    | n + 1 =>
      let part := firstPart logger msg
      let r := printLoop logger n msg
      (part :: r.1, r.2)

/-- printMessage, src/log.go lines 61-98: drop the record when its level
is below the handle level (lines 62-64), otherwise run the split loop and
the final single-line emission (lines 65-97). -/
def printMessage (logger : Logger) (fuel : Nat) (msg : LogMsg) : List LogMsg × Bool :=
  if msg.Level < logger.Level then ([], true)
  else printLoop logger fuel msg

/-- Fan-out of printMessage, src/log.go lines 86-89 and 94-97: every
emitted line is written to standard output and to each registered sink in
registration order.  The first component is the stdout line sequence, the
second the per-sink line sequences. -/
def printMessageOutputs (logger : Logger) (fuel : Nat) (msg : LogMsg) :
    (List LogMsg × List (List LogMsg)) × Bool :=
  let r := printMessage logger fuel msg
  ((r.1, List.replicate logger.writers r.1), r.2)

theorem printLoop_le (logger : Logger) (fuel : Nat) (msg : LogMsg)
    (h : (msg.Message.length : Int) ≤ logger.msgLen) :
    printLoop logger fuel msg = ([msg], true) := by
  unfold printLoop
  rw [if_pos h]

theorem printLoop_gt (logger : Logger) (msg : LogMsg)
    (h : logger.msgLen < (msg.Message.length : Int)) :
    ∀ fuel : Nat, printLoop logger fuel msg = (List.replicate fuel (firstPart logger msg), false) := by
  intro fuel
  induction fuel with
  | zero =>
    unfold printLoop
    rw [if_neg (not_le.mpr h)]
    rfl
  | succ n ih =>
    unfold printLoop
    rw [if_neg (not_le.mpr h)]
    show (firstPart logger msg :: (printLoop logger n msg).1, (printLoop logger n msg).2) = _
    rw [ih]
    rfl

/-- Result of running a piece of Go code that may panic.  The Go runtime
panics on closing an already-closed channel and on sending to a closed
channel; receiving from a closed channel yields the zero value at once. -/
inductive GoResult (α : Type) : Type where
  | panicked : GoResult α
  | ok : α → GoResult α
deriving DecidableEq

/-- Channel and queue state of one Logger handle: whether the output
channel (the message queue) and the stop channel have been closed, and
the records handed to the delivery worker so far. -/
structure HandleState where
  outputClosed : Bool
  stopClosed : Bool
  pending : List LogMsg
deriving DecidableEq

/-- Go fmt.Sprintf applied to a format string with no operand values:
literal units are copied, a doubled percent collapses to one percent, a
percent followed by a verb unit v is rewritten to the missing-operand
error text percent-bang-v-(MISSING), and a trailing bare percent becomes
the no-verb error text.  Flag, width and precision characters inside a
verb are not modeled; no input considered below uses them. -/
def sprintfNoArgs : List Char → List Char
  | [] => []
  | '%' :: rest =>
    match rest with
    | [] => "%!(NOVERB)".data
    | '%' :: rest2 => '%' :: sprintfNoArgs rest2
    | c :: rest2 => '%' :: '!' :: c :: ("(MISSING)".data ++ sprintfNoArgs rest2)
  | c :: rest => c :: sprintfNoArgs rest

/-- Record built by Logger.log, src/log.go lines 102-110, for a call that
passes no operand values after the format string: the message is
fmt.Sprintf(format) and the source location comes from runtime.Caller. -/
def mkRecord (logger : Logger) (now : Nat) (srcFile : List Char) (srcLine : Int)
    (level : Int) (format : List Char) : LogMsg :=
  { Timestamp := now, Level := level, Message := sprintfNoArgs format,
    Module := logger.module, ModuleId := logger.id,
    SrcFile := srcFile, SrcLine := srcLine }

/-- Logger.log, src/log.go lines 100-111: build the record and send it on
logger.output.  A send on a closed channel panics; on an open channel the
record is handed to the delivery worker. -/
def log (logger : Logger) (s : HandleState) (now : Nat) (srcFile : List Char)
    (srcLine : Int) (level : Int) (format : List Char) : GoResult HandleState :=
  if s.outputClosed then GoResult.panicked
  else GoResult.ok { s with pending := s.pending ++ [mkRecord logger now srcFile srcLine level format] }

/-- Logger.Debug, src/log.go lines 146-148. -/
def Debug (logger : Logger) (s : HandleState) (now : Nat) (srcFile : List Char)
    (srcLine : Int) (format : List Char) : GoResult HandleState :=
  log logger s now srcFile srcLine DebugLevel format

/-- Logger.Info, src/log.go lines 150-152. -/
def Info (logger : Logger) (s : HandleState) (now : Nat) (srcFile : List Char)
    (srcLine : Int) (format : List Char) : GoResult HandleState :=
  log logger s now srcFile srcLine InfoLevel format

/-- Logger.Warning, src/log.go lines 154-156. -/
def Warning (logger : Logger) (s : HandleState) (now : Nat) (srcFile : List Char)
    (srcLine : Int) (format : List Char) : GoResult HandleState :=
  log logger s now srcFile srcLine WarningLevel format

/-- Logger.Error, src/log.go lines 158-160. -/
def Error (logger : Logger) (s : HandleState) (now : Nat) (srcFile : List Char)
    (srcLine : Int) (format : List Char) : GoResult HandleState :=
  log logger s now srcFile srcLine ErrorLevel format

/-- Logger.Stop, src/log.go lines 162-164: close(logger.output).  Closing
an already-closed channel panics. -/
def Stop (s : HandleState) : GoResult HandleState :=
  if s.outputClosed then GoResult.panicked
  else GoResult.ok { s with outputClosed := true }

/-- Logger.StopSync, src/log.go lines 166-170: close(logger.output), then
receive from logger.stop (the worker, src/log.go lines 136-142, finishes
draining the queue and sends true once the output channel is closed), then
close(logger.stop).  Either close panics when its channel is already
closed; on the normal path the worker has delivered all pending records
before the completion signal, so the queue is drained. -/
def StopSync (s : HandleState) : GoResult HandleState :=
  if s.outputClosed then GoResult.panicked
  else if s.stopClosed then GoResult.panicked
  else GoResult.ok { outputClosed := true, stopClosed := true, pending := [] }

/-- LogWriter.Write, src/log.go lines 177-181: convert the buffer to a
string, call host.log at the adapter level with the buffer text as the
format string and no operand values, and return (len(p), nil).  The error
component is modeled as Option (List Char), nil being none. -/
def Write (logger : Logger) (s : HandleState) (now : Nat) (srcFile : List Char)
    (srcLine : Int) (level : Int) (p : List Char) :
    GoResult (HandleState × Nat × Option (List Char)) :=
  match log logger s now srcFile srcLine level p with
  | GoResult.panicked => GoResult.panicked
  | GoResult.ok s2 => GoResult.ok (s2, p.length, none)

/-- Digit accumulator of strconv.Atoi: consume decimal digits, fail on any
other unit. -/
def digitsValAux (acc : Nat) : List Char → Option Nat
  | [] => some acc
  | c :: cs => if c.isDigit then digitsValAux (10 * acc + (c.toNat - 48)) cs else none

/-- Digit run of strconv.Atoi: at least one digit, all units digits. -/
def digitsVal : List Char → Option Nat
  | [] => none
  | c :: cs => if c.isDigit then digitsValAux (c.toNat - 48) cs else none

/-- Syntactic part of strconv.Atoi: optional sign followed by a nonempty
digit run.  Overflow of a 64-bit int is not modeled; every value
considered below is small. -/
def atoiParse (s : String) : Option Int :=
  match s.data with
  | '+' :: rest =>
    match digitsVal rest with
    | some n => some (n : Int)
    | none => none
  | '-' :: rest =>
    match digitsVal rest with
    | some n => some (-(n : Int))
    | none => none
  | l =>
    match digitsVal l with
    | some n => some (n : Int)
    | none => none

/-- strconv.Atoi as used at src/log.go line 132: the error is discarded
and a syntax error leaves the value 0. -/
def atoi (s : String) : Int := (atoiParse s).getD 0

/-- Whether strconv.Atoi accepts the string as numeric. -/
def atoiOk (s : String) : Bool := (atoiParse s).isSome

/-- LOGLEVEL resolution, src/log.go lines 121-131: the switch maps ERROR
and 3 to ErrorLevel, WARNING and 2 to WarningLevel, DEBUG and 0 to
DebugLevel, and everything else to InfoLevel. -/
def resolveLevel (s : String) : Int :=
  if s = "ERROR" ∨ s = "3" then ErrorLevel
  else if s = "WARNING" ∨ s = "2" then WarningLevel
  else if s = "DEBUG" ∨ s = "0" then DebugLevel
  else InfoLevel

/-- LOG_MSG_LEN resolution, src/log.go lines 132-135: Atoi with the error
discarded, then the default MaxMsgLength when the result is 0. -/
def resolveMsgLen (s : String) : Int :=
  let n := atoi s
  if n = 0 then MaxMsgLength else n

/-- Init, src/log.go lines 115-144, restricted to its configuration
effect: the module is bound, the id starts empty, the level comes from the
LOGLEVEL environment value and the split length from the LOG_MSG_LEN
environment value; no sinks are registered yet. -/
def Init (module : List Char) (loglevelEnv logMsgLenEnv : String) : Logger :=
  { module := module, id := [], Level := resolveLevel loglevelEnv,
    msgLen := resolveMsgLen logMsgLenEnv, writers := 0 }

/-- Handle state right after Init: both channels open, nothing pending. -/
def freshHandle : HandleState := { outputClosed := false, stopClosed := false, pending := [] }

/-- Handle state after a completed StopSync: both channels closed, queue drained. -/
def stoppedHandle : HandleState := { outputClosed := true, stopClosed := true, pending := [] }

/-- Handle state after Stop alone: the queue is closed, the stop channel is not. -/
def halfStopped : HandleState := { outputClosed := true, stopClosed := false, pending := [] }

/-- Logger configuration with the default level and split length and no sinks. -/
def nlLogger : Logger :=
  { module := [], id := [], Level := InfoLevel, msgLen := 8000, writers := 0 }

/-- Info record whose message contains an embedded newline and fits the threshold. -/
def nlMsg : LogMsg :=
  { Timestamp := 0, Level := InfoLevel, Message := "a\nb".data,
    Module := [], ModuleId := [], SrcFile := [], SrcLine := 0 }

/-- Logger of the concrete spec scenario: level Info, split length 10. -/
def scenLogger : Logger :=
  { module := "super-app".data, id := [], Level := InfoLevel, msgLen := 10, writers := 0 }

/-- Record of the concrete spec scenario: a 24-unit newline-free Info message. -/
def scenMsg : LogMsg :=
  { Timestamp := 0, Level := InfoLevel, Message := "hello world this is long".data,
    Module := "super-app".data, ModuleId := [], SrcFile := "main.go".data, SrcLine := 5 }

/-- First 10-unit fragment of the scenario message. -/
def scenPart : LogMsg := { scenMsg with Message := "hello worl".data }

/-- Logger with a 5-unit split length used to instantiate the loop theorem. -/
def w2Logger : Logger :=
  { module := [], id := [], Level := InfoLevel, msgLen := 5, writers := 0 }

/-- Newline-free 8-unit record used to instantiate the loop theorem. -/
def w2Msg : LogMsg :=
  { Timestamp := 0, Level := InfoLevel, Message := "abcdefgh".data,
    Module := [], ModuleId := [], SrcFile := [], SrcLine := 0 }

/-- Warning-level handle with two registered sinks. -/
def w5Logger : Logger :=
  { module := [], id := [], Level := WarningLevel, msgLen := 8000, writers := 2 }

/-- Debug record sent to the Warning-level handle. -/
def w5Msg : LogMsg :=
  { Timestamp := 0, Level := DebugLevel, Message := "x".data,
    Module := [], ModuleId := [], SrcFile := [], SrcLine := 0 }

/-- Short Info record with an embedded newline for the amended newline claim. -/
def w6Msg : LogMsg :=
  { Timestamp := 0, Level := InfoLevel, Message := "p\nq".data,
    Module := [], ModuleId := [], SrcFile := [], SrcLine := 0 }

/-- Short newline-free Info record for the single-line claim. -/
def w8Msg : LogMsg :=
  { Timestamp := 0, Level := InfoLevel, Message := "t".data,
    Module := [], ModuleId := [], SrcFile := [], SrcLine := 0 }

/-- Claim C1.  On the concrete spec scenario (split length 10, newline-free
24-unit Info message) the claim expects 3 output lines that concatenate to
the original message.  The code instead never finishes: line 90 of
src/log.go stores the remainder into the local copy msgPart, msg.Message
is never shortened, and every iteration of the split loop re-emits the
same first 10-unit fragment, for any iteration bound. -/
theorem oversized_message_repeats_first_fragment_forever (fuel : Nat) :
    printMessage scenLogger fuel scenMsg = (List.replicate fuel scenPart, false) := by
  have h3 : firstPart scenLogger scenMsg = scenPart := by decide
  unfold printMessage
  rw [if_neg (by decide : ¬ scenMsg.Level < scenLogger.Level),
    printLoop_gt scenLogger scenMsg (by decide) fuel, h3]

/-- Claim C2.  The claim states that the split loop repeats only until the
remaining message length is at most the threshold and then terminates.  In
the code the loop state never changes (the remainder is written to the
local copy msgPart on line 90 of src/log.go), so for every record longer
than a nonnegative threshold that passes the level filter, and for every
iteration bound, the loop is still running after that many iterations,
each having emitted the same first fragment: processing never completes. -/
theorem split_loop_never_terminates_on_long_message (logger : Logger) (fuel : Nat)
    (msg : LogMsg) (hnn : 0 ≤ logger.msgLen) (hlv : ¬ msg.Level < logger.Level)
    (hlen : logger.msgLen < (msg.Message.length : Int)) :
    printMessage logger fuel msg = (List.replicate fuel (firstPart logger msg), false) := by
  unfold printMessage
  rw [if_neg hlv]
  exact printLoop_gt logger msg hlen fuel

/-- Witness for the loop theorem: threshold 5, message of 8 units, 3
iterations observed, none of them final. -/
theorem split_loop_never_terminates_on_long_message_witness :
    printMessage w2Logger 3 w2Msg = (List.replicate 3 (firstPart w2Logger w2Msg), false) :=
  split_loop_never_terminates_on_long_message w2Logger 3 w2Msg (by decide) (by decide)
    (by decide)

/-- Claim C3, counterexample.  A first StopSync on a fresh handle completes
and closes both channels; a second StopSync then panics when it closes the
already-closed output channel, refuting the claim that the second call is
a panic-free no-op. -/
theorem second_stopSync_call_panics :
    StopSync freshHandle = GoResult.ok stoppedHandle ∧
    StopSync stoppedHandle = GoResult.panicked := by decide

/-- Claim C3, amended.  After any completed Stop or StopSync the output
channel is closed, and a further StopSync panics at close(logger.output);
StopSync is safe to call at most once per handle. -/
theorem stopSync_on_closed_queue_panics (s : HandleState) (h : s.outputClosed = true) :
    StopSync s = GoResult.panicked := by
  simp [StopSync, h]

/-- Witness for the amended StopSync claim at the fully stopped handle. -/
theorem stopSync_on_closed_queue_panics_witness :
    StopSync stoppedHandle = GoResult.panicked :=
  stopSync_on_closed_queue_panics stoppedHandle rfl

/-- Claim C4, counterexample.  Stop on a fresh handle closes the queue;
a Debug call on the stopped handle then sends on the closed channel and
panics, refuting the claim that leveled calls after stop never panic. -/
theorem leveled_call_after_stop_panics_counterexample :
    Stop freshHandle = GoResult.ok halfStopped ∧
    Debug nlLogger halfStopped 0 [] 0 ("x".data) = GoResult.panicked := by decide

/-- Claim C4, amended.  Once the queue channel is closed by Stop or
StopSync, every leveled log call (Debug, Info, Warning and Error all
delegate to log) panics with a send on a closed channel. -/
theorem leveled_call_after_stop_panics (logger : Logger) (s : HandleState) (now : Nat)
    (srcFile : List Char) (srcLine : Int) (level : Int) (format : List Char)
    (h : s.outputClosed = true) :
    log logger s now srcFile srcLine level format = GoResult.panicked := by
  simp [log, h]

/-- Witness for the amended after-stop claim at a concrete stopped handle. -/
theorem leveled_call_after_stop_panics_witness :
    log nlLogger stoppedHandle 0 [] 0 ErrorLevel ("y".data) = GoResult.panicked :=
  leveled_call_after_stop_panics nlLogger stoppedHandle 0 [] 0 ErrorLevel ("y".data) rfl

/-- Claim C5.  A record whose level is strictly below the handle level is
dropped by the filter at the top of printMessage: standard output receives
no lines and each of the registered sinks receives no lines. -/
theorem below_level_message_produces_no_output (logger : Logger) (fuel : Nat) (msg : LogMsg)
    (hlv : msg.Level < logger.Level) :
    printMessageOutputs logger fuel msg = (([], List.replicate logger.writers []), true) := by
  unfold printMessageOutputs printMessage
  rw [if_pos hlv]

/-- Witness for the level filter: a Debug record on a Warning handle with
two sinks produces zero lines everywhere. -/
theorem below_level_message_produces_no_output_witness :
    printMessageOutputs w5Logger 1 w5Msg = (([], [[], []]), true) :=
  below_level_message_produces_no_output w5Logger 1 w5Msg (by decide)

/-- Claim C6, counterexample.  The Info message a-newline-b fits the
default threshold, so it is emitted as one line whose message field is the
original text, newline included: an emitted message field does contain an
embedded newline, refuting the claim. -/
theorem embedded_newline_in_emitted_line :
    (printMessage nlLogger 0 nlMsg).1 = [nlMsg] ∧ '\n' ∈ nlMsg.Message := by decide

/-- Claim C6, amended.  For a message containing newline characters whose
length is at most the threshold, processing emits exactly one line whose
message field equals the original message, embedded newlines preserved
(messages are only split when they exceed the threshold, and even then
only the last newline within the threshold is consumed); joining the
emitted message fields with newline separators trivially reconstructs the
original. -/
theorem short_message_with_newline_single_line (logger : Logger) (fuel : Nat) (msg : LogMsg)
    (hlv : ¬ msg.Level < logger.Level) (hnl : '\n' ∈ msg.Message)
    (hlen : (msg.Message.length : Int) ≤ logger.msgLen) :
    (printMessage logger fuel msg).1.map LogMsg.Message = [msg.Message] ∧
    List.intercalate ['\n'] ((printMessage logger fuel msg).1.map LogMsg.Message) =
      msg.Message := by
  have h : printMessage logger fuel msg = ([msg], true) := by
    unfold printMessage
    rw [if_neg hlv]
    exact printLoop_le logger fuel msg hlen
  rw [h]
  exact ⟨rfl, by simp [List.intercalate]⟩

/-- Witness for the amended newline claim on a 3-unit message with one
embedded newline. -/
theorem short_message_with_newline_single_line_witness :
    (printMessage nlLogger 0 w6Msg).1.map LogMsg.Message = [w6Msg.Message] ∧
    List.intercalate ['\n'] ((printMessage nlLogger 0 w6Msg).1.map LogMsg.Message) =
      w6Msg.Message :=
  short_message_with_newline_single_line nlLogger 0 w6Msg (by decide) (by decide) (by decide)

/-- Claim C7.  The adapter passes the buffer text to log as the format
string of fmt.Sprintf with no operand values, so a buffer that contains a
format verb is mangled: writing the two-unit buffer percent-d enqueues a
record whose message is the missing-operand text, not the buffer text.
The adapter level (Debug here) is attached as claimed. -/
theorem writer_format_verb_mangles_message :
    Write nlLogger freshHandle 0 [] 0 DebugLevel ("%d".data) =
      GoResult.ok
        ({ outputClosed := false, stopClosed := false,
           pending := [{ Timestamp := 0, Level := DebugLevel,
                         Message := "%!d(MISSING)".data, Module := [], ModuleId := [],
                         SrcFile := [], SrcLine := 0 }] },
          2, none) ∧
    "%!d(MISSING)".data ≠ "%d".data := by decide

/-- Claim C8.  A record that passes the level filter and whose message
length is at most the threshold skips the split loop entirely and is
emitted as exactly one line; the emitted record is the original record, so
the message field of the line decodes back to the original message text
unchanged. -/
theorem short_message_single_line_roundtrip (logger : Logger) (fuel : Nat) (msg : LogMsg)
    (hlv : ¬ msg.Level < logger.Level) (hlen : (msg.Message.length : Int) ≤ logger.msgLen) :
    printMessage logger fuel msg = ([msg], true) := by
  unfold printMessage
  rw [if_neg hlv]
  exact printLoop_le logger fuel msg hlen

/-- Witness for the single-line claim, on a handle built by Init with
empty environment values (level Info, threshold 8000). -/
theorem short_message_single_line_roundtrip_witness :
    printMessage (Init [] "" "") 0 w8Msg = ([w8Msg], true) :=
  short_message_single_line_roundtrip (Init [] "" "") 0 w8Msg (by decide) (by decide)

/-- Claim C9.  Init resolves the level from the LOGLEVEL value: DEBUG and
0 give DebugLevel, WARNING and 2 give WarningLevel, ERROR and 3 give
ErrorLevel, and every other value (INFO, 1, the empty string of an unset
variable, anything else) gives InfoLevel; and it resolves the split length
from the LOG_MSG_LEN value, falling back to 8000 when Atoi rejects the
string or the parsed value is 0. -/
theorem env_config_resolution :
    (∀ m t, (Init m "DEBUG" t).Level = DebugLevel) ∧
    (∀ m t, (Init m "0" t).Level = DebugLevel) ∧
    (∀ m t, (Init m "WARNING" t).Level = WarningLevel) ∧
    (∀ m t, (Init m "2" t).Level = WarningLevel) ∧
    (∀ m t, (Init m "ERROR" t).Level = ErrorLevel) ∧
    (∀ m t, (Init m "3" t).Level = ErrorLevel) ∧
    (∀ m (s t : String), s ≠ "DEBUG" → s ≠ "0" → s ≠ "WARNING" → s ≠ "2" →
      s ≠ "ERROR" → s ≠ "3" → (Init m s t).Level = InfoLevel) ∧
    (∀ m (s t : String), atoiOk t = false → (Init m s t).msgLen = 8000) ∧
    (∀ m (s : String), (Init m s "0").msgLen = 8000) := by
  refine ⟨fun m t => by show resolveLevel "DEBUG" = DebugLevel; decide,
    fun m t => by show resolveLevel "0" = DebugLevel; decide,
    fun m t => by show resolveLevel "WARNING" = WarningLevel; decide,
    fun m t => by show resolveLevel "2" = WarningLevel; decide,
    fun m t => by show resolveLevel "ERROR" = ErrorLevel; decide,
    fun m t => by show resolveLevel "3" = ErrorLevel; decide,
    ?_, ?_, fun m s => by show resolveMsgLen "0" = 8000; decide⟩
  · intro m s t h1 h2 h3 h4 h5 h6
    simp [Init, resolveLevel, h1, h2, h3, h4, h5, h6]
  · intro m s t h
    have hz : atoi t = 0 := by
      unfold atoi
      unfold atoiOk at h
      cases hp : atoiParse t with
      | none => rfl
      | some v => rw [hp] at h; simp at h
    simp [Init, resolveMsgLen, MaxMsgLength, hz]

/-- Witness for the configuration claim: the unrecognized value INFO and a
non-numeric length value fall back to Info and 8000. -/
theorem env_config_resolution_witness :
    (Init [] "INFO" "abc").Level = InfoLevel ∧ (Init [] "INFO" "abc").msgLen = 8000 := by
  constructor
  · exact env_config_resolution.2.2.2.2.2.2.1 [] "INFO" "abc" (by decide) (by decide)
      (by decide) (by decide) (by decide) (by decide)
  · exact env_config_resolution.2.2.2.2.2.2.2.1 [] "INFO" "abc" (by decide)

/-- Claim C10.  Whenever LogWriter.Write returns (the handle has not been
stopped, so the underlying send does not panic), it returns the pair
(len(p), nil), independent of the adapter level, the filter and the rest
of the configuration. -/
theorem write_returns_len_nil (logger : Logger) (s : HandleState) (now : Nat)
    (srcFile : List Char) (srcLine : Int) (level : Int) (p : List Char)
    (hopen : s.outputClosed = false) :
    Write logger s now srcFile srcLine level p =
      GoResult.ok
        ({ s with pending := s.pending ++ [mkRecord logger now srcFile srcLine level p] },
          p.length, none) := by
  simp [Write, log, hopen]

/-- Witness for the Write return value on a live handle: count 3, nil
error for a 3-unit buffer at Warning level on an Info-filtered handle. -/
theorem write_returns_len_nil_witness :
    Write nlLogger freshHandle 1 ("m.go".data) 7 WarningLevel ("abc".data) =
      GoResult.ok
        ({ freshHandle with
            pending := freshHandle.pending ++
              [mkRecord nlLogger 1 ("m.go".data) 7 WarningLevel ("abc".data)] },
          3, none) :=
  write_returns_len_nil nlLogger freshHandle 1 ("m.go".data) 7 WarningLevel ("abc".data) rfl

end Liblog
